import Mathlib

/-!
Formal model of the cdmon certbot DNS authenticator
(`certbot_dns_cdmon/dns_cdmon.py`).

Python strings are embedded as lists of characters (`Str`), Python dicts
used by the plugin (`self._domain_map`) as association lists, and the
network as a function from outgoing API calls to their outcomes.  Each
Lean definition mirrors one function of the source file; the HTTP layer
(`requests.Session.post` / `Response.raise_for_status`) is modelled with
the documented semantics of the `requests` library: `raise_for_status`
raises an `HTTPError` whose text is
`"<status> Client Error: <reason> for url: <url>"` for 4xx statuses
(`Server Error` for 5xx), and it never reads the response body.
-/

deriving instance DecidableEq for Except

/-- Python `str`, embedded as a list of characters. -/
abbrev Str := List Char

/-- Python `s.endswith(suf)`. -/
def pyEndsWith (s suf : Str) : Bool := suf.isSuffixOf s

/-- Python `s.startswith(pre)`. -/
def pyStartsWith (s p : Str) : Bool := p.isPrefixOf s

/-- Python `sub in s` (substring test). -/
def pyContains (s sub : Str) : Bool :=
  if sub.isPrefixOf s then true
  else
    match s with
    | [] => false
    | _ :: t => pyContains t sub

/-- Python `s.split(".")`: splits on every dot, keeps empty pieces,
returns `[""]` on the empty string. -/
def pySplitDot : Str → List Str
  | [] => [[]]
  | c :: rest =>
    let r := pySplitDot rest
    if c = '.' then [] :: r
    else
      match r with
      | [] => [[c]]
      | h :: t => (c :: h) :: t

/-- Python `".".join(parts)`. -/
def pyJoinDot (parts : List Str) : Str := List.intercalate ['.'] parts

/-- Decimal rendering of a natural number (Python `str(n)` /
`requests`' interpolation of the status code). -/
def natStr (n : Nat) : Str := (Nat.repr n).data

/-- Source constant `ACME_CHALLENGE_PREFIX = "_acme-challenge"`. -/
def acmeChallengeStr : Str := "_acme-challenge".data

/-- Source constant `DEFAULT_TTL = 60`. -/
def DEFAULT_TTL : Nat := 60

/-- Source constant `API_BASE_URL`. -/
def API_BASE_URL : Str := "https://api-domains.cdmon.services/api-domains".data

/-- A DNS record as read from the provider's listing response.  The
plugin only ever reads the `type`, `name` and `id` JSON fields
(`record.get("type")`, `record.get("name")`, `record.get("id")`); `id`
is `Option` because `dict.get` yields `None` when the field is absent. -/
structure DNSRecord where
  rtype : Str
  name : Str
  id : Option Nat
deriving DecidableEq, Repr

/-- One outgoing POST of the plugin, with the JSON payload fields the
source puts in the request body. -/
inductive ApiCall where
  | listRecords (domain token : Str)
  | createRecord (domain token rtype name content : Str) (ttl : Nat)
  | editRecord (domain token rtype name content : Str) (ttl : Nat) (id : Option Nat)
  | deleteRecord (domain token : Str) (id : Option Nat)
deriving DecidableEq, Repr

/-- A parsed provider response: HTTP status and reason line plus the
decoded JSON body fields the plugin reads (`success` defaults to
`False` via `response_data.get("success", False)`, `message` is
optional, `records` is `data.records` of the listing response). -/
structure ApiResponse where
  status : Nat
  reason : Str
  success : Bool
  message : Option Str
  records : List DNSRecord
deriving DecidableEq, Repr

/-- Outcome of one POST: either a connection/timeout failure
(`requests.exceptions.ConnectionError` / `Timeout`, both subclasses of
`RequestException`) or a response. -/
inductive PostResult where
  | conn (msg : Str)
  | resp (r : ApiResponse)

/-- The network: what each outgoing call returns. -/
abbrev Net := ApiCall → PostResult

/-- URL of each endpoint, as built in the source. -/
def urlFor : ApiCall → Str
  | .listRecords .. => API_BASE_URL ++ "/dns/records".data
  | .createRecord .. => API_BASE_URL ++ "/dns/record/add".data
  | .editRecord .. => API_BASE_URL ++ "/dns/record/edit".data
  | .deleteRecord .. => API_BASE_URL ++ "/dns/record/delete".data

/-- Models `requests.Response.raise_for_status`: raises on 4xx/5xx with
the library's message format, never touching the body. -/
def raiseForStatus (url : Str) (r : ApiResponse) : Except Str ApiResponse :=
  if 400 ≤ r.status ∧ r.status < 500 then
    .error (natStr r.status ++ " Client Error: ".data ++ r.reason ++ " for url: ".data ++ url)
  else if 500 ≤ r.status ∧ r.status < 600 then
    .error (natStr r.status ++ " Server Error: ".data ++ r.reason ++ " for url: ".data ++ url)
  else .ok r

/-- Models `session.post(url, json=data)` followed by
`response.raise_for_status()`: an error is either a connection failure
or an HTTP error; both are `RequestException`s to the `except` clauses
of the source. -/
def postChecked (net : Net) (c : ApiCall) : Except Str ApiResponse :=
  match net c with
  | .conn msg => .error msg
  | .resp r => raiseForStatus (urlFor c) r

/-- Lookup in `self._domain_map` (Python dict membership / indexing). -/
def mapLookup : List (Str × Str) → Str → Option Str
  | [], _ => none
  | (k, v) :: rest, key => if key = k then some v else mapLookup rest key

/-- The mutable state of one `Authenticator` instance: `self._api_key`,
`self._domain` (only ever a non-empty string or `None`), and
`self._domain_map`. -/
structure AuthState where
  apiKey : Str
  domainOpt : Option Str
  domainMap : List (Str × Str)
deriving DecidableEq, Repr

/-- The assignment `self._domain_map[validation_name] = d` (the key is always absent
when the source assigns, so appending preserves dict semantics). -/
def mapInsert (st : AuthState) (key d : Str) : AuthState :=
  { st with domainMap := st.domainMap ++ [(key, d)] }

/-- Dropping a leading `_acme-challenge` label, as in
`_detect_base_domain` (`if name_parts[0] == ACME_CHALLENGE_PREFIX`). -/
def stripAcmeParts (parts : List Str) : List Str :=
  match parts with
  | p :: rest => if p = acmeChallengeStr then rest else parts
  | [] => parts

/-- The suffix scan of `_detect_base_domain`:
`for i in range(len(name_parts) - 1)`, candidate
`possible = ".".join(name_parts[i:])`, accepted when
`possible == domain or domain.endswith("." + possible)`.  Candidates
of a single label are never tried. -/
def scanCandidates (domain : Str) : List Str → Option Str
  | [] => none
  | [_] => none
  | p :: rest =>
    let possible := pyJoinDot (p :: rest)
    if possible = domain ∨ pyEndsWith domain ('.' :: possible) then some possible
    else scanCandidates domain rest

/-- Error text of `_detect_base_domain`'s failure branch. -/
def noBaseDomainMsg (validationName : Str) : Str :=
  "Could not determine base domain for ".data ++ validationName ++
    ". Please specify the domain in the credentials file or environment variable DOMAIN_CDMON.".data

/-- The scan-or-fail tail of `_detect_base_domain`, entered when neither
the cache nor the configured domain answered. -/
def detectScan (st : AuthState) (domain validationName : Str) :
    Except Str (Str × AuthState) :=
  match scanCandidates domain (stripAcmeParts (pySplitDot validationName)) with
  | some d => .ok (d, mapInsert st validationName d)
  | none => .error (noBaseDomainMsg validationName)

/-- Source `_detect_base_domain(self, domain, validation_name)`: cache hit
first, then the configured domain via plain
`validation_name.endswith(config_domain)` (guarded by the truthiness of
`config_domain`), then the suffix scan, else an error. -/
def detectBaseDomain (st : AuthState) (domain validationName : Str) :
    Except Str (Str × AuthState) :=
  match mapLookup st.domainMap validationName with
  | some d => .ok (d, st)
  | none =>
    match st.domainOpt with
    | some cfg =>
      if cfg ≠ [] ∧ pyEndsWith validationName cfg then
        .ok (cfg, mapInsert st validationName cfg)
      else detectScan st domain validationName
    | none => detectScan st domain validationName

/-- Error text of `_get_base_domain_for_validation`'s failure branch. -/
def noMapMsg (validationName : Str) : Str :=
  "Could not find base domain for ".data ++ validationName ++
    ". Please ensure _perform is called before _cleanup.".data

/-- Source `_get_base_domain_for_validation(self, validation_name)`: looks the
base domain up in `self._domain_map` only, raising when absent. -/
def getBaseDomainForValidation (st : AuthState) (validationName : Str) : Except Str Str :=
  match mapLookup st.domainMap validationName with
  | some d => .ok d
  | none => .error (noMapMsg validationName)

/-- The string manipulation of `_get_cdmon_subdomain`: strip the base
domain (Python `validation_name[:-len(base_domain) - 1]`), empty for
the apex, empty when the name does not match the base domain. -/
def extractSubdomain (validationName baseDomain : Str) : Str :=
  if pyEndsWith validationName ('.' :: baseDomain) then
    validationName.take (validationName.length - baseDomain.length - 1)
  else if validationName = baseDomain then []
  else []

/-- Source `_get_cdmon_subdomain(self, validation_name)`. -/
def getCdmonSubdomain (st : AuthState) (validationName : Str) : Except Str Str :=
  match getBaseDomainForValidation st validationName with
  | .error e => .error e
  | .ok base => .ok (extractSubdomain validationName base)

/-- Source `_format_acme_subdomain(self, subdomain)`. -/
def formatAcmeSubdomain (subdomain : Str) : Str :=
  if pyStartsWith subdomain acmeChallengeStr then subdomain
  else if subdomain = [] then acmeChallengeStr
  else acmeChallengeStr ++ '.' :: subdomain

/-- Source `_find_txt_records(self, domain, subdomain)`: one listing POST; on
any `RequestException` or a non-`success` body it returns the empty
list; otherwise the records filtered to
`type == "TXT" and name == acme_subdomain`.  The second component is
the trace of issued calls. -/
def findTxtRecords (net : Net) (st : AuthState) (domain subdomain : Str) :
    List DNSRecord × List ApiCall :=
  let acmeSub := formatAcmeSubdomain subdomain
  let call := ApiCall.listRecords domain st.apiKey
  match postChecked net call with
  | .error _ => ([], [call])
  | .ok r =>
    if r.success then
      (r.records.filter (fun rec => rec.rtype == "TXT".data && rec.name == acmeSub), [call])
    else ([], [call])

/-- Source `_create_dns_txt_record(self, domain, name, content)`. -/
def createDnsTxtRecord (net : Net) (st : AuthState) (domain name content : Str) :
    Except Str Unit × List ApiCall :=
  let call := ApiCall.createRecord domain st.apiKey "TXT".data name content DEFAULT_TTL
  match postChecked net call with
  | .error e => (.error ("Error creating DNS record: ".data ++ e), [call])
  | .ok r =>
    if r.success then (.ok (), [call])
    else (.error ("Error creating DNS record: ".data ++ r.message.getD "Unknown error".data), [call])

/-- Source `_edit_dns_txt_record(self, domain, name, content, record_id)`. -/
def editDnsTxtRecord (net : Net) (st : AuthState) (domain name content : Str)
    (recordId : Option Nat) : Except Str Unit × List ApiCall :=
  let call := ApiCall.editRecord domain st.apiKey "TXT".data name content DEFAULT_TTL recordId
  match postChecked net call with
  | .error e => (.error ("Error editing DNS record: ".data ++ e), [call])
  | .ok r =>
    if r.success then (.ok (), [call])
    else (.error ("Error editing DNS record: ".data ++ r.message.getD "Unknown error".data), [call])

/-- Source `_delete_dns_record(self, domain, record_id)`. -/
def deleteDnsRecord (net : Net) (st : AuthState) (domain : Str) (recordId : Option Nat) :
    Except Str Unit × List ApiCall :=
  let call := ApiCall.deleteRecord domain st.apiKey recordId
  match postChecked net call with
  | .error e => (.error ("Error deleting DNS record: ".data ++ e), [call])
  | .ok r =>
    if r.success then (.ok (), [call])
    else (.error ("Error deleting DNS record: ".data ++ r.message.getD "Unknown error".data), [call])

/-- Source `_create_txt_record(self, subdomain, validation, validation_name)`:
the upsert — list, then edit the first match or create. -/
def createTxtRecord (net : Net) (st : AuthState) (subdomain validation validationName : Str) :
    Except Str Unit × List ApiCall :=
  match getBaseDomainForValidation st validationName with
  | .error e => (.error e, [])
  | .ok domain =>
    let acmeSub := formatAcmeSubdomain subdomain
    let found := findTxtRecords net st domain subdomain
    match found.1 with
    | rec :: _ =>
      let step := editDnsTxtRecord net st domain acmeSub validation rec.id
      (step.1, found.2 ++ step.2)
    | [] =>
      let step := createDnsTxtRecord net st domain acmeSub validation
      (step.1, found.2 ++ step.2)

/-- Source `_delete_txt_record(self, subdomain, validation, validation_name)`:
list, then delete the first match, or do nothing. -/
def deleteTxtRecord (net : Net) (st : AuthState) (subdomain validation validationName : Str) :
    Except Str Unit × List ApiCall :=
  match getBaseDomainForValidation st validationName with
  | .error e => (.error e, [])
  | .ok domain =>
    let found := findTxtRecords net st domain subdomain
    match found.1 with
    | rec :: _ =>
      let step := deleteDnsRecord net st domain rec.id
      (step.1, found.2 ++ step.2)
    | [] => (.ok (), found.2)

/-- Source `_perform(self, domain, validation_name, validation)`: detect the
base domain (updating the cache), extract the subdomain, upsert; every
exception is wrapped into `PluginError("Error creating TXT record: …")`.
The successful result carries the updated authenticator state. -/
def perform (net : Net) (st : AuthState) (domain validationName validation : Str) :
    Except Str AuthState × List ApiCall :=
  match detectBaseDomain st domain validationName with
  | .error e => (.error ("Error creating TXT record: ".data ++ e), [])
  | .ok (_, st') =>
    match getCdmonSubdomain st' validationName with
    | .error e => (.error ("Error creating TXT record: ".data ++ e), [])
    | .ok sub =>
      let step := createTxtRecord net st' sub validation validationName
      match step.1 with
      | .error e => (.error ("Error creating TXT record: ".data ++ e), step.2)
      | .ok _ => (.ok st', step.2)

/-- Source `_cleanup(self, domain, validation_name, validation)`: extract the
subdomain (cache lookup only — no detection), find-and-delete; every
exception is wrapped into
`PluginError("Error cleaning up TXT record: …")`. -/
def cleanup (net : Net) (st : AuthState) (domain validationName validation : Str) :
    Except Str Unit × List ApiCall :=
  match getCdmonSubdomain st validationName with
  | .error e => (.error ("Error cleaning up TXT record: ".data ++ e), [])
  | .ok sub =>
    let step := deleteTxtRecord net st sub validation validationName
    match step.1 with
    | .error e => (.error ("Error cleaning up TXT record: ".data ++ e), step.2)
    | .ok _ => (.ok (), step.2)

/-! ## Helper lemmas -/

theorem isPrefixOf_append_right (l t : Str) : l.isPrefixOf (l ++ t) = true := by
  induction l with
  | nil => simp [List.isPrefixOf]
  | cons a as ih => simp [List.isPrefixOf, ih]

theorem pyStartsWith_append (p t : Str) : pyStartsWith (p ++ t) p = true :=
  isPrefixOf_append_right p t

theorem pyEndsWith_append (h s : Str) : pyEndsWith (h ++ s) s = true := by
  unfold pyEndsWith List.isSuffixOf
  rw [List.reverse_append]
  exact isPrefixOf_append_right s.reverse h.reverse

/-- Every output of `_format_acme_subdomain` starts with the ACME label. -/
theorem format_startsWith (s : Str) :
    pyStartsWith (formatAcmeSubdomain s) acmeChallengeStr = true := by
  unfold formatAcmeSubdomain
  by_cases h1 : pyStartsWith s acmeChallengeStr = true
  · rw [if_pos h1]; exact h1
  · rw [if_neg h1]
    by_cases h2 : s = []
    · rw [if_pos h2]
      have := pyStartsWith_append acmeChallengeStr []
      simpa using this
    · rw [if_neg h2]
      exact pyStartsWith_append acmeChallengeStr ('.' :: s)

/-- Formatting `_format_acme_subdomain` is idempotent. -/
theorem format_idem (s : Str) :
    formatAcmeSubdomain (formatAcmeSubdomain s) = formatAcmeSubdomain s := by
  conv_lhs => rw [formatAcmeSubdomain]
  rw [if_pos (format_startsWith s)]

/-- Stripping `"." ++ b` from `h ++ "." ++ b` recovers `h`. -/
theorem extract_append (h b : Str) : extractSubdomain (h ++ '.' :: b) b = h := by
  unfold extractSubdomain
  rw [if_pos (pyEndsWith_append h ('.' :: b))]
  have e : (h ++ '.' :: b).length - b.length - 1 = h.length := by
    simp only [List.length_append, List.length_cons]
    omega
  rw [e]
  exact List.take_left h ('.' :: b)

theorem mapLookup_append_self (m : List (Str × Str)) (k d : Str)
    (h : mapLookup m k = none) : mapLookup (m ++ [(k, d)]) k = some d := by
  induction m with
  | nil => simp [mapLookup]
  | cons p rest ih =>
    obtain ⟨k', v'⟩ := p
    by_cases hk : k = k'
    · simp [mapLookup, hk] at h
    · simp only [mapLookup, List.cons_append, if_neg hk] at h ⊢
      exact ih h

/-- A successful `detectScan` on an uncached name caches its result. -/
theorem detectScan_ok_lookup {st : AuthState} {dom v d : Str} {st' : AuthState}
    (h : detectScan st dom v = .ok (d, st'))
    (hm : mapLookup st.domainMap v = none) :
    mapLookup st'.domainMap v = some d := by
  unfold detectScan at h
  split at h
  · simp only [Except.ok.injEq, Prod.mk.injEq] at h
    obtain ⟨h1, h2⟩ := h
    subst h1
    subst h2
    exact mapLookup_append_self _ _ _ hm
  · exact Except.noConfusion h

/-- Every successful `_detect_base_domain` leaves the resolved domain in
the cache under the validation name. -/
theorem detect_ok_lookup {st : AuthState} {dom v d : Str} {st' : AuthState}
    (h : detectBaseDomain st dom v = .ok (d, st')) :
    mapLookup st'.domainMap v = some d := by
  unfold detectBaseDomain at h
  split at h
  · rename_i x heq
    simp only [Except.ok.injEq, Prod.mk.injEq] at h
    obtain ⟨h1, h2⟩ := h
    subst h1
    subst h2
    exact heq
  · rename_i heq
    split at h
    · split at h
      · simp only [Except.ok.injEq, Prod.mk.injEq] at h
        obtain ⟨h1, h2⟩ := h
        subst h1
        subst h2
        exact mapLookup_append_self _ _ _ heq
      · exact detectScan_ok_lookup h heq
    · exact detectScan_ok_lookup h heq

/-- The trace of `_create_dns_txt_record` is always exactly its one POST. -/
theorem createDnsTxtRecord_calls (net : Net) (st : AuthState) (d n c : Str) :
    (createDnsTxtRecord net st d n c).2
      = [ApiCall.createRecord d st.apiKey "TXT".data n c DEFAULT_TTL] := by
  simp only [createDnsTxtRecord]
  split
  · rfl
  · split <;> rfl

/-- The trace of `_edit_dns_txt_record` is always exactly its one POST. -/
theorem editDnsTxtRecord_calls (net : Net) (st : AuthState) (d n c : Str) (i : Option Nat) :
    (editDnsTxtRecord net st d n c i).2
      = [ApiCall.editRecord d st.apiKey "TXT".data n c DEFAULT_TTL i] := by
  simp only [editDnsTxtRecord]
  split
  · rfl
  · split <;> rfl

/-- A 2xx response passes `raise_for_status` unchanged. -/
theorem postChecked_ok {net : Net} {c : ApiCall} {r : ApiResponse}
    (hnet : net c = .resp r) (hst : r.status < 400) :
    postChecked net c = .ok r := by
  unfold postChecked
  rw [hnet]
  show raiseForStatus (urlFor c) r = Except.ok r
  unfold raiseForStatus
  rw [if_neg (by omega), if_neg (by omega)]

/-- On a successful listing response, `_find_txt_records` returns the
records filtered to TXT records named like the formatted challenge
host, and issues exactly the one listing call. -/
theorem findTxtRecords_ok (sub : Str) {net : Net} {st : AuthState} {d : Str} {r : ApiResponse}
    (hnet : net (ApiCall.listRecords d st.apiKey) = .resp r)
    (hst : r.status < 400) (hsucc : r.success = true) :
    findTxtRecords net st d sub
      = (r.records.filter
          (fun q => q.rtype == "TXT".data && q.name == formatAcmeSubdomain sub),
         [ApiCall.listRecords d st.apiKey]) := by
  simp only [findTxtRecords]
  rw [postChecked_ok hnet hst]
  simp [hsucc]

/-! ## Claim theorems -/

/-- C7: base-domain resolution is idempotent: a successful
`_detect_base_domain` stores the result in `self._domain_map` under the
validation name, and a second call with the same validation name hits
that cache entry and returns the same base domain and state. -/
theorem resolve_idempotent (st : AuthState) (dom v d : Str) (st' : AuthState)
    (h : detectBaseDomain st dom v = .ok (d, st')) :
    mapLookup st'.domainMap v = some d ∧
      detectBaseDomain st' dom v = .ok (d, st') := by
  have hl := detect_ok_lookup h
  refine ⟨hl, ?_⟩
  unfold detectBaseDomain
  rw [hl]

/-- C7 witness: a concrete resolution, repeated. -/
theorem resolve_idempotent_witness :
    mapLookup
        (AuthState.mk "k".data none
          [("_acme-challenge.example.com".data, "example.com".data)]).domainMap
        "_acme-challenge.example.com".data = some "example.com".data ∧
      detectBaseDomain
        (AuthState.mk "k".data none
          [("_acme-challenge.example.com".data, "example.com".data)])
        "example.com".data "_acme-challenge.example.com".data
      = .ok ("example.com".data,
          AuthState.mk "k".data none
            [("_acme-challenge.example.com".data, "example.com".data)]) :=
  resolve_idempotent (AuthState.mk "k".data none []) "example.com".data
    "_acme-challenge.example.com".data "example.com".data
    (AuthState.mk "k".data none
      [("_acme-challenge.example.com".data, "example.com".data)])
    (by decide)

/-- C10: `_cleanup` on a validation name absent from
`self._domain_map` fails with the wrapped `PluginError` of
`_get_base_domain_for_validation` and issues no provider API call,
whatever the configured base domain is — the cleanup path only ever
looks the base domain up in the cache. -/
theorem cleanup_requires_prior_perform (net : Net) (st : AuthState) (dom v val : Str)
    (h : mapLookup st.domainMap v = none) :
    cleanup net st dom v val
      = (.error ("Error cleaning up TXT record: ".data ++ noMapMsg v), []) := by
  simp only [cleanup, getCdmonSubdomain, getBaseDomainForValidation, h]

/-- C10 witness: empty cache, configured domain `example.com` whose
suffix matches the validation name, yet cleanup raises without calling
the API. -/
theorem cleanup_requires_prior_perform_witness :
    mapLookup (AuthState.mk "k".data (some "example.com".data) []).domainMap
        "_acme-challenge.example.com".data = none ∧
      cleanup (fun _ => PostResult.resp (ApiResponse.mk 200 "OK".data true none []))
        (AuthState.mk "k".data (some "example.com".data) [])
        "example.com".data "_acme-challenge.example.com".data "v".data
      = (.error ("Error cleaning up TXT record: ".data ++
          noMapMsg "_acme-challenge.example.com".data), []) :=
  ⟨by decide,
    cleanup_requires_prior_perform
      (fun _ => PostResult.resp (ApiResponse.mk 200 "OK".data true none []))
      (AuthState.mk "k".data (some "example.com".data) [])
      "example.com".data "_acme-challenge.example.com".data "v".data (by decide)⟩

/-- C3 (amended): for an uncached validation name and a configured base
domain, the configured-domain step of `_detect_base_domain` fires if and
only if the validation name ends with the configured domain as a plain
string suffix (Python `validation_name.endswith(config_domain)`, which
includes equality); no dot-boundary check is made.  When it fires the
configured domain is cached and returned, otherwise the suffix scan
decides. -/
theorem configured_domain_matches_plain_suffix (st : AuthState) (dom v base : Str)
    (hm : mapLookup st.domainMap v = none)
    (hcfg : st.domainOpt = some base) (hne : base ≠ []) :
    (pyEndsWith v base = true →
      detectBaseDomain st dom v = .ok (base, mapInsert st v base)) ∧
    (pyEndsWith v base = false →
      detectBaseDomain st dom v = detectScan st dom v) := by
  constructor
  · intro hend
    unfold detectBaseDomain
    simp only [hm, hcfg]
    rw [if_pos ⟨hne, hend⟩]
  · intro hend
    unfold detectBaseDomain
    simp only [hm, hcfg]
    rw [if_neg (by simp [hend])]

/-- C3 counterexample: `notexample.com` merely ends with the characters
of `example.com` without a dot boundary, yet the configured-domain step
matches it and returns `example.com`. -/
theorem configured_domain_dot_boundary_cx :
    detectBaseDomain (AuthState.mk "k".data (some "example.com".data) [])
        "other.org".data "notexample.com".data
      = .ok ("example.com".data,
          AuthState.mk "k".data (some "example.com".data)
            [("notexample.com".data, "example.com".data)]) ∧
    ("notexample.com".data = "example.com".data ∨
        pyEndsWith "notexample.com".data ('.' :: "example.com".data) = true → False) := by
  decide

/-- C3 witness: plain-suffix match at a concrete input. -/
theorem configured_domain_matches_plain_suffix_witness :
    pyEndsWith "test.example.com".data "example.com".data = true ∧
      detectBaseDomain (AuthState.mk "k".data (some "example.com".data) [])
        "example.com".data "test.example.com".data
      = .ok ("example.com".data,
          mapInsert (AuthState.mk "k".data (some "example.com".data) [])
            "test.example.com".data "example.com".data) :=
  ⟨by decide,
    (configured_domain_matches_plain_suffix
      (AuthState.mk "k".data (some "example.com".data) [])
      "example.com".data "test.example.com".data "example.com".data
      (by decide) (by decide) (by decide)).1 (by decide)⟩

/-- C4 (amended): when neither the cache nor the configured-domain
suffix test answers and the longest-to-shortest suffix scan finds no
candidate, `_detect_base_domain` raises its resolution error — there is
no best-effort fallback to a configured base domain that did not
suffix-match. -/
theorem scan_failure_raises_despite_config (st : AuthState) (dom v : Str)
    (hm : mapLookup st.domainMap v = none)
    (hcfg : ∀ cfg, st.domainOpt = some cfg → ¬(cfg ≠ [] ∧ pyEndsWith v cfg = true))
    (hscan : scanCandidates dom (stripAcmeParts (pySplitDot v)) = none) :
    detectBaseDomain st dom v = .error (noBaseDomainMsg v) := by
  have hds : detectScan st dom v = .error (noBaseDomainMsg v) := by
    unfold detectScan
    rw [hscan]
  unfold detectBaseDomain
  cases hc : st.domainOpt with
  | none =>
    simp only [hm, hc]
    exact hds
  | some cfg =>
    simp only [hm, hc]
    rw [if_neg (hcfg cfg hc)]
    exact hds

/-- C4 counterexample: a configured base domain exists
(`example.com`), the scan over `_acme-challenge.foo.bar` against
`other.org` finds no candidate, and resolution raises instead of
falling back to the configured domain. -/
theorem scan_failure_no_fallback_cx :
    scanCandidates "other.org".data
        (stripAcmeParts (pySplitDot "_acme-challenge.foo.bar".data)) = none ∧
    detectBaseDomain (AuthState.mk "k".data (some "example.com".data) [])
        "other.org".data "_acme-challenge.foo.bar".data
      = .error (noBaseDomainMsg "_acme-challenge.foo.bar".data) := by
  decide

/-- C4 witness: the amended theorem applied at the counterexample
input. -/
theorem scan_failure_raises_despite_config_witness :
    detectBaseDomain (AuthState.mk "k".data (some "example.com".data) [])
        "other.org".data "_acme-challenge.foo.bar".data
      = .error (noBaseDomainMsg "_acme-challenge.foo.bar".data) :=
  scan_failure_raises_despite_config
    (AuthState.mk "k".data (some "example.com".data) [])
    "other.org".data "_acme-challenge.foo.bar".data
    (by decide)
    (by intro cfg hc; cases hc; decide)
    (by decide)

/-- C2: evaluation of `_get_cdmon_subdomain` at the failing input — with
`_acme-challenge.sub1.sub2.example.com` resolved to base domain
`example.com`, the code returns `_acme-challenge.sub1.sub2`, not the
`sub1.sub2` that the claim (and the repository's own unit test
`test_get_cdmon_subdomain`) expects: the code never strips the
`_acme-challenge` label during extraction. -/
theorem extract_keeps_acme_label_eval :
    getCdmonSubdomain
        (AuthState.mk "k".data none
          [("_acme-challenge.sub1.sub2.example.com".data, "example.com".data)])
        "_acme-challenge.sub1.sub2.example.com".data
      = .ok "_acme-challenge.sub1.sub2".data ∧
    "_acme-challenge.sub1.sub2".data ≠ "sub1.sub2".data := by
  decide

/-- C6: the extract/format round trip — the challenge host computed
from a validation name, re-resolved against the base domain, reproduces
itself — together with the formatter's clauses: empty maps to
`_acme-challenge`, a subdomain not already carrying the label is
prefixed with `_acme-challenge.`, one already carrying it is returned
unchanged, and formatting is idempotent. -/
theorem extract_format_round_trip (v b s : Str)
    (h : v = b ∨ pyEndsWith v ('.' :: b) = true) :
    formatAcmeSubdomain
        (extractSubdomain (formatAcmeSubdomain (extractSubdomain v b) ++ '.' :: b) b)
      = formatAcmeSubdomain (extractSubdomain v b) ∧
    formatAcmeSubdomain [] = acmeChallengeStr ∧
    (s ≠ [] → pyStartsWith s acmeChallengeStr = false →
      formatAcmeSubdomain s = acmeChallengeStr ++ '.' :: s) ∧
    (pyStartsWith s acmeChallengeStr = true → formatAcmeSubdomain s = s) ∧
    formatAcmeSubdomain (formatAcmeSubdomain s) = formatAcmeSubdomain s := by
  refine ⟨?_, by decide, ?_, ?_, format_idem s⟩
  · rw [extract_append]
    exact format_idem (extractSubdomain v b)
  · intro h1 h2
    unfold formatAcmeSubdomain
    rw [if_neg (by simp [h2]), if_neg h1]
  · intro h1
    unfold formatAcmeSubdomain
    rw [if_pos h1]

/-- C6 witness: the spec's scenario
`_acme-challenge.sub1.sub2.example.com` against `example.com`. -/
theorem extract_format_round_trip_witness :
    ("_acme-challenge.sub1.sub2.example.com".data = "example.com".data ∨
      pyEndsWith "_acme-challenge.sub1.sub2.example.com".data
        ('.' :: "example.com".data) = true) ∧
    formatAcmeSubdomain
        (extractSubdomain
          (formatAcmeSubdomain
            (extractSubdomain "_acme-challenge.sub1.sub2.example.com".data
              "example.com".data) ++ '.' :: "example.com".data)
          "example.com".data)
      = formatAcmeSubdomain
          (extractSubdomain "_acme-challenge.sub1.sub2.example.com".data
            "example.com".data) :=
  ⟨Or.inr (by decide),
    (extract_format_round_trip "_acme-challenge.sub1.sub2.example.com".data
      "example.com".data "sub1.sub2".data (Or.inr (by decide))).1⟩

/-- The upsert trace of `_perform` is the trace of its
`_create_txt_record` call, whatever that call's outcome. -/
theorem perform_calls (net : Net) (st : AuthState) (dom v val s base : Str)
    (st' : AuthState)
    (hdet : detectBaseDomain st dom v = .ok (base, st'))
    (hsub : getCdmonSubdomain st' v = .ok s) :
    (perform net st dom v val).2 = (createTxtRecord net st' s val v).2 := by
  simp only [perform, hdet, hsub]
  cases hc : (createTxtRecord net st' s val v).1 <;> simp [hc]

/-- C5: when the base domain for a validation name is cached and the
provider's listing succeeds but holds no TXT record named like the
expected challenge host, `_cleanup` issues only the listing call — no
delete — and returns without raising. -/
theorem remove_absent_record_noop (net : Net) (st : AuthState) (dom v val base : Str)
    (r : ApiResponse)
    (hmap : mapLookup st.domainMap v = some base)
    (hnet : net (ApiCall.listRecords base st.apiKey) = .resp r)
    (hst : r.status < 400) (hsucc : r.success = true)
    (hnone : r.records.filter
        (fun q => q.rtype == "TXT".data &&
          q.name == formatAcmeSubdomain (extractSubdomain v base)) = []) :
    cleanup net st dom v val = (.ok (), [ApiCall.listRecords base st.apiKey]) := by
  have hsub : getCdmonSubdomain st v = .ok (extractSubdomain v base) := by
    simp [getCdmonSubdomain, getBaseDomainForValidation, hmap]
  have hfind := findTxtRecords_ok (extractSubdomain v base) hnet hst hsucc
  have hdel : deleteTxtRecord net st (extractSubdomain v base) val v
      = (.ok (), [ApiCall.listRecords base st.apiKey]) := by
    simp only [deleteTxtRecord, getBaseDomainForValidation, hmap]
    rw [hfind]
    simp only [hnone]
  simp only [cleanup, hsub, hdel]

/-- C5 witness: listing returns one TXT record under a different name;
cleanup stops after the listing call. -/
theorem remove_absent_record_noop_witness :
    mapLookup [("_acme-challenge.example.com".data, "example.com".data)]
        "_acme-challenge.example.com".data = some "example.com".data ∧
    cleanup
        (fun _ => PostResult.resp (ApiResponse.mk 200 "OK".data true none
          [DNSRecord.mk "TXT".data "other".data (some 3)]))
        (AuthState.mk "k".data none
          [("_acme-challenge.example.com".data, "example.com".data)])
        "example.com".data "_acme-challenge.example.com".data "v".data
      = (.ok (), [ApiCall.listRecords "example.com".data "k".data]) :=
  ⟨by decide,
    remove_absent_record_noop
      (fun _ => PostResult.resp (ApiResponse.mk 200 "OK".data true none
        [DNSRecord.mk "TXT".data "other".data (some 3)]))
      (AuthState.mk "k".data none
        [("_acme-challenge.example.com".data, "example.com".data)])
      "example.com".data "_acme-challenge.example.com".data "v".data "example.com".data
      (ApiResponse.mk 200 "OK".data true none
        [DNSRecord.mk "TXT".data "other".data (some 3)])
      (by decide) rfl (by decide) (by decide) (by decide)⟩

/-- C1: the upsert performed by `_perform` first lists the provider's
records for the resolved base domain; the records are filtered to TXT
records whose name equals the formatted challenge host.  If the
filtered list is non-empty, exactly one edit call targeting the first
matching record is issued with ttl 60 and no create call; if it is
empty, exactly one create call with ttl 60 is issued and no edit
call. -/
theorem upsert_lists_then_edits_or_creates (net : Net) (st : AuthState)
    (dom v val base : Str) (st' : AuthState) (r : ApiResponse)
    (hdet : detectBaseDomain st dom v = .ok (base, st'))
    (hnet : net (ApiCall.listRecords base st'.apiKey) = .resp r)
    (hst : r.status < 400) (hsucc : r.success = true) :
    (∀ rec rest,
      r.records.filter
          (fun q => q.rtype == "TXT".data &&
            q.name == formatAcmeSubdomain (extractSubdomain v base)) = rec :: rest →
      (perform net st dom v val).2
        = [ApiCall.listRecords base st'.apiKey,
           ApiCall.editRecord base st'.apiKey "TXT".data
             (formatAcmeSubdomain (extractSubdomain v base)) val 60 rec.id]) ∧
    (r.records.filter
        (fun q => q.rtype == "TXT".data &&
          q.name == formatAcmeSubdomain (extractSubdomain v base)) = [] →
      (perform net st dom v val).2
        = [ApiCall.listRecords base st'.apiKey,
           ApiCall.createRecord base st'.apiKey "TXT".data
             (formatAcmeSubdomain (extractSubdomain v base)) val 60]) := by
  have hlook := detect_ok_lookup hdet
  have hsub : getCdmonSubdomain st' v = .ok (extractSubdomain v base) := by
    simp [getCdmonSubdomain, getBaseDomainForValidation, hlook]
  have hfind := findTxtRecords_ok (extractSubdomain v base) hnet hst hsucc
  have hpc := perform_calls net st dom v val (extractSubdomain v base) base st' hdet hsub
  constructor
  · intro rec rest hmatch
    rw [hpc]
    simp only [createTxtRecord, getBaseDomainForValidation, hlook]
    rw [hfind]
    simp only [hmatch]
    rw [editDnsTxtRecord_calls]
    rfl
  · intro hempty
    rw [hpc]
    simp only [createTxtRecord, getBaseDomainForValidation, hlook]
    rw [hfind]
    simp only [hempty]
    rw [createDnsTxtRecord_calls]
    rfl

/-- C1 witness: one matching TXT record listed — the upsert issues the
listing call and then exactly one edit call with ttl 60. -/
theorem upsert_lists_then_edits_or_creates_witness :
    (perform
        (fun _ => PostResult.resp (ApiResponse.mk 200 "OK".data true none
          [DNSRecord.mk "TXT".data "_acme-challenge".data (some 7)]))
        (AuthState.mk "k".data none []) "example.com".data
        "_acme-challenge.example.com".data "val".data).2
      = [ApiCall.listRecords "example.com".data "k".data,
         ApiCall.editRecord "example.com".data "k".data "TXT".data
           "_acme-challenge".data "val".data 60 (some 7)] :=
  (upsert_lists_then_edits_or_creates
      (fun _ => PostResult.resp (ApiResponse.mk 200 "OK".data true none
        [DNSRecord.mk "TXT".data "_acme-challenge".data (some 7)]))
      (AuthState.mk "k".data none []) "example.com".data
      "_acme-challenge.example.com".data "val".data "example.com".data
      (AuthState.mk "k".data none
        [("_acme-challenge.example.com".data, "example.com".data)])
      (ApiResponse.mk 200 "OK".data true none
        [DNSRecord.mk "TXT".data "_acme-challenge".data (some 7)])
      (by decide) rfl (by decide) (by decide)).1
    (DNSRecord.mk "TXT".data "_acme-challenge".data (some 7)) [] (by decide)

/-- A connection/timeout failure surfaces from the POST as an error. -/
theorem postChecked_conn {net : Net} {c : ApiCall} {msg : Str}
    (h : net c = .conn msg) : postChecked net c = .error msg := by
  simp only [postChecked, h]

/-- A 4xx response turns into the `requests` client-error text. -/
theorem postChecked_4xx {net : Net} {c : ApiCall} {r : ApiResponse}
    (h : net c = .resp r) (h1 : 400 ≤ r.status) (h2 : r.status < 500) :
    postChecked net c
      = .error (natStr r.status ++ " Client Error: ".data ++ r.reason ++
          " for url: ".data ++ urlFor c) := by
  unfold postChecked
  rw [h]
  show raiseForStatus _ r = _
  unfold raiseForStatus
  rw [if_pos ⟨h1, h2⟩]

/-- A 5xx response turns into the `requests` server-error text. -/
theorem postChecked_5xx {net : Net} {c : ApiCall} {r : ApiResponse}
    (h : net c = .resp r) (h1 : 500 ≤ r.status) (h2 : r.status < 600) :
    postChecked net c
      = .error (natStr r.status ++ " Server Error: ".data ++ r.reason ++
          " for url: ".data ++ urlFor c) := by
  unfold postChecked
  rw [h]
  show raiseForStatus _ r = _
  unfold raiseForStatus
  rw [if_neg (by omega), if_pos ⟨h1, h2⟩]

/-- Any `RequestException` on the listing POST makes
`_find_txt_records` return the empty list as a normal result. -/
theorem findTxtRecords_error (sub : Str) {net : Net} {st : AuthState} {d e : Str}
    (h : postChecked net (ApiCall.listRecords d st.apiKey) = .error e) :
    findTxtRecords net st d sub = ([], [ApiCall.listRecords d st.apiKey]) := by
  simp only [findTxtRecords, h]

/-- Any `RequestException` on the create POST is wrapped and raised. -/
theorem createDnsTxtRecord_error {net : Net} {st : AuthState} {d n c e : Str}
    (h : postChecked net (ApiCall.createRecord d st.apiKey "TXT".data n c DEFAULT_TTL)
      = .error e) :
    (createDnsTxtRecord net st d n c).1
      = .error ("Error creating DNS record: ".data ++ e) := by
  simp only [createDnsTxtRecord, h]

/-- Any `RequestException` on the edit POST is wrapped and raised. -/
theorem editDnsTxtRecord_error {net : Net} {st : AuthState} {d n c e : Str}
    {i : Option Nat}
    (h : postChecked net (ApiCall.editRecord d st.apiKey "TXT".data n c DEFAULT_TTL i)
      = .error e) :
    (editDnsTxtRecord net st d n c i).1
      = .error ("Error editing DNS record: ".data ++ e) := by
  simp only [editDnsTxtRecord, h]

/-- Any `RequestException` on the delete POST is wrapped and raised. -/
theorem deleteDnsRecord_error {net : Net} {st : AuthState} {d e : Str}
    {i : Option Nat}
    (h : postChecked net (ApiCall.deleteRecord d st.apiKey i) = .error e) :
    (deleteDnsRecord net st d i).1
      = .error ("Error deleting DNS record: ".data ++ e) := by
  simp only [deleteDnsRecord, h]

/-- C8 (amended): each mutation call (`_create_dns_txt_record`,
`_edit_dns_txt_record`, `_delete_dns_record`) raises on a connection
failure, on a 4xx or 5xx response (via `raise_for_status`), and on a
2xx `success:false` body (using the provider's `message` field when
present); the record-listing call `_find_txt_records` used by both
upsert and cleanup instead converts connection failures, HTTP error
statuses and non-`success` responses into an empty record list
returned as a normal result. -/
theorem api_failure_channels (net : Net) (st : AuthState)
    (d sub name content msg : Str) (recId : Option Nat) (r : ApiResponse) :
    (net (ApiCall.listRecords d st.apiKey) = .conn msg →
      findTxtRecords net st d sub = ([], [ApiCall.listRecords d st.apiKey])) ∧
    (net (ApiCall.listRecords d st.apiKey) = .resp r → r.status < 400 →
      r.success = false →
      findTxtRecords net st d sub = ([], [ApiCall.listRecords d st.apiKey])) ∧
    (net (ApiCall.listRecords d st.apiKey) = .resp r →
      400 ≤ r.status → r.status < 600 →
      findTxtRecords net st d sub = ([], [ApiCall.listRecords d st.apiKey])) ∧
    (net (ApiCall.createRecord d st.apiKey "TXT".data name content DEFAULT_TTL) = .conn msg →
      (createDnsTxtRecord net st d name content).1
        = .error ("Error creating DNS record: ".data ++ msg)) ∧
    (net (ApiCall.createRecord d st.apiKey "TXT".data name content DEFAULT_TTL) = .resp r →
      400 ≤ r.status → r.status < 500 →
      (createDnsTxtRecord net st d name content).1
        = .error ("Error creating DNS record: ".data ++ natStr r.status ++
            " Client Error: ".data ++ r.reason ++ " for url: ".data ++
            API_BASE_URL ++ "/dns/record/add".data)) ∧
    (net (ApiCall.createRecord d st.apiKey "TXT".data name content DEFAULT_TTL) = .resp r →
      500 ≤ r.status → r.status < 600 →
      (createDnsTxtRecord net st d name content).1
        = .error ("Error creating DNS record: ".data ++ natStr r.status ++
            " Server Error: ".data ++ r.reason ++ " for url: ".data ++
            API_BASE_URL ++ "/dns/record/add".data)) ∧
    (net (ApiCall.createRecord d st.apiKey "TXT".data name content DEFAULT_TTL) = .resp r →
      r.status < 400 → r.success = false →
      (createDnsTxtRecord net st d name content).1
        = .error ("Error creating DNS record: ".data ++
            r.message.getD "Unknown error".data)) ∧
    (net (ApiCall.editRecord d st.apiKey "TXT".data name content DEFAULT_TTL recId) = .conn msg →
      (editDnsTxtRecord net st d name content recId).1
        = .error ("Error editing DNS record: ".data ++ msg)) ∧
    (net (ApiCall.editRecord d st.apiKey "TXT".data name content DEFAULT_TTL recId) = .resp r →
      400 ≤ r.status → r.status < 500 →
      (editDnsTxtRecord net st d name content recId).1
        = .error ("Error editing DNS record: ".data ++ natStr r.status ++
            " Client Error: ".data ++ r.reason ++ " for url: ".data ++
            API_BASE_URL ++ "/dns/record/edit".data)) ∧
    (net (ApiCall.editRecord d st.apiKey "TXT".data name content DEFAULT_TTL recId) = .resp r →
      500 ≤ r.status → r.status < 600 →
      (editDnsTxtRecord net st d name content recId).1
        = .error ("Error editing DNS record: ".data ++ natStr r.status ++
            " Server Error: ".data ++ r.reason ++ " for url: ".data ++
            API_BASE_URL ++ "/dns/record/edit".data)) ∧
    (net (ApiCall.editRecord d st.apiKey "TXT".data name content DEFAULT_TTL recId) = .resp r →
      r.status < 400 → r.success = false →
      (editDnsTxtRecord net st d name content recId).1
        = .error ("Error editing DNS record: ".data ++
            r.message.getD "Unknown error".data)) ∧
    (net (ApiCall.deleteRecord d st.apiKey recId) = .conn msg →
      (deleteDnsRecord net st d recId).1
        = .error ("Error deleting DNS record: ".data ++ msg)) ∧
    (net (ApiCall.deleteRecord d st.apiKey recId) = .resp r →
      400 ≤ r.status → r.status < 500 →
      (deleteDnsRecord net st d recId).1
        = .error ("Error deleting DNS record: ".data ++ natStr r.status ++
            " Client Error: ".data ++ r.reason ++ " for url: ".data ++
            API_BASE_URL ++ "/dns/record/delete".data)) ∧
    (net (ApiCall.deleteRecord d st.apiKey recId) = .resp r →
      500 ≤ r.status → r.status < 600 →
      (deleteDnsRecord net st d recId).1
        = .error ("Error deleting DNS record: ".data ++ natStr r.status ++
            " Server Error: ".data ++ r.reason ++ " for url: ".data ++
            API_BASE_URL ++ "/dns/record/delete".data)) ∧
    (net (ApiCall.deleteRecord d st.apiKey recId) = .resp r →
      r.status < 400 → r.success = false →
      (deleteDnsRecord net st d recId).1
        = .error ("Error deleting DNS record: ".data ++
            r.message.getD "Unknown error".data)) := by
  refine ⟨?_, ?_, ?_, ?_, ?_, ?_, ?_, ?_, ?_, ?_, ?_, ?_, ?_, ?_, ?_⟩
  · intro h
    exact findTxtRecords_error sub (postChecked_conn h)
  · intro h h4 hsf
    simp only [findTxtRecords]
    rw [postChecked_ok h h4]
    simp [hsf]
  · intro h h1 h2
    by_cases h5 : r.status < 500
    · exact findTxtRecords_error sub (postChecked_4xx h h1 h5)
    · exact findTxtRecords_error sub (postChecked_5xx h (by omega) h2)
  · intro h
    rw [createDnsTxtRecord_error (postChecked_conn h)]
  · intro h h1 h2
    rw [createDnsTxtRecord_error (postChecked_4xx h h1 h2)]
    simp [urlFor, List.append_assoc]
  · intro h h1 h2
    rw [createDnsTxtRecord_error (postChecked_5xx h h1 h2)]
    simp [urlFor, List.append_assoc]
  · intro h h4 hsf
    simp only [createDnsTxtRecord]
    rw [postChecked_ok h h4]
    simp [hsf]
  · intro h
    rw [editDnsTxtRecord_error (postChecked_conn h)]
  · intro h h1 h2
    rw [editDnsTxtRecord_error (postChecked_4xx h h1 h2)]
    simp [urlFor, List.append_assoc]
  · intro h h1 h2
    rw [editDnsTxtRecord_error (postChecked_5xx h h1 h2)]
    simp [urlFor, List.append_assoc]
  · intro h h4 hsf
    simp only [editDnsTxtRecord]
    rw [postChecked_ok h h4]
    simp [hsf]
  · intro h
    rw [deleteDnsRecord_error (postChecked_conn h)]
  · intro h h1 h2
    rw [deleteDnsRecord_error (postChecked_4xx h h1 h2)]
    simp [urlFor, List.append_assoc]
  · intro h h1 h2
    rw [deleteDnsRecord_error (postChecked_5xx h h1 h2)]
    simp [urlFor, List.append_assoc]
  · intro h h4 hsf
    simp only [deleteDnsRecord]
    rw [postChecked_ok h h4]
    simp [hsf]

/-- C8 counterexample: a connection timeout on the listing call is
converted into the normal result "no records" instead of raising. -/
theorem listing_swallows_failure_cx :
    findTxtRecords (fun _ => PostResult.conn "connection timed out".data)
        (AuthState.mk "k".data none []) "example.com".data "test".data
      = ([], [ApiCall.listRecords "example.com".data "k".data]) := by
  decide

/-- C8 witness: the amended theorem at a concrete success:false
listing response. -/
theorem api_failure_channels_witness :
    findTxtRecords
        (fun _ => PostResult.resp (ApiResponse.mk 200 "OK".data false
          (some "backend down".data) []))
        (AuthState.mk "k".data none []) "example.com".data "test".data
      = ([], [ApiCall.listRecords "example.com".data "k".data]) :=
  ((api_failure_channels
      (fun _ => PostResult.resp (ApiResponse.mk 200 "OK".data false
        (some "backend down".data) []))
      (AuthState.mk "k".data none []) "example.com".data "test".data
      "n".data "c".data "m".data none
      (ApiResponse.mk 200 "OK".data false (some "backend down".data) [])).2.1)
    rfl (by decide) (by decide)

/-- C9 (amended): when the provider answers a create request with HTTP
403 (reason `Forbidden`) and body message `No API key found in
request`, the operation fails via `raise_for_status` with an error
whose text contains `403` but not the body's message — the response
body is only parsed on 2xx responses, so the provider's `message` field
never reaches the error text. -/
theorem create_403_omits_body_message (net : Net) (st : AuthState)
    (d name content : Str) (r : ApiResponse)
    (hnet : net (ApiCall.createRecord d st.apiKey "TXT".data name content DEFAULT_TTL)
      = .resp r)
    (hst : r.status = 403) (hreason : r.reason = "Forbidden".data)
    (hmsg : r.message = some "No API key found in request".data) :
    (createDnsTxtRecord net st d name content).1
      = .error ("Error creating DNS record: 403 Client Error: Forbidden for url: https://api-domains.cdmon.services/api-domains/dns/record/add".data) ∧
    pyContains "Error creating DNS record: 403 Client Error: Forbidden for url: https://api-domains.cdmon.services/api-domains/dns/record/add".data
      "403".data = true ∧
    pyContains "Error creating DNS record: 403 Client Error: Forbidden for url: https://api-domains.cdmon.services/api-domains/dns/record/add".data
      "No API key found in request".data = false := by
  refine ⟨?_, by decide, by decide⟩
  have hpost : postChecked net
      (ApiCall.createRecord d st.apiKey "TXT".data name content DEFAULT_TTL)
      = .error (natStr r.status ++ " Client Error: ".data ++ r.reason ++
          " for url: ".data ++
          urlFor (ApiCall.createRecord d st.apiKey "TXT".data name content DEFAULT_TTL)) := by
    unfold postChecked
    rw [hnet]
    show raiseForStatus _ r = _
    unfold raiseForStatus
    rw [if_pos (by omega)]
  simp only [createDnsTxtRecord, hpost]
  rw [hst, hreason]
  simp only [urlFor]
  decide

/-- C9 counterexample: at the claimed scenario the raised error text
does not contain `No API key found in request`, refuting the claim that
it contains both `403` and the body message. -/
theorem create_403_contains_message_cx :
    (createDnsTxtRecord
        (fun _ => PostResult.resp (ApiResponse.mk 403 "Forbidden".data false
          (some "No API key found in request".data) []))
        (AuthState.mk "k".data none []) "example.com".data
        "_acme-challenge".data "v".data).1
      = .error ("Error creating DNS record: 403 Client Error: Forbidden for url: https://api-domains.cdmon.services/api-domains/dns/record/add".data) ∧
    pyContains "Error creating DNS record: 403 Client Error: Forbidden for url: https://api-domains.cdmon.services/api-domains/dns/record/add".data
      "No API key found in request".data = false := by
  decide

/-- C9 witness: the amended theorem at the concrete 403 response. -/
theorem create_403_omits_body_message_witness :
    (createDnsTxtRecord
        (fun _ => PostResult.resp (ApiResponse.mk 403 "Forbidden".data false
          (some "No API key found in request".data) []))
        (AuthState.mk "k".data none []) "example.com".data
        "_acme-challenge".data "v".data).1
      = .error ("Error creating DNS record: 403 Client Error: Forbidden for url: https://api-domains.cdmon.services/api-domains/dns/record/add".data) :=
  (create_403_omits_body_message
      (fun _ => PostResult.resp (ApiResponse.mk 403 "Forbidden".data false
        (some "No API key found in request".data) []))
      (AuthState.mk "k".data none []) "example.com".data
      "_acme-challenge".data "v".data
      (ApiResponse.mk 403 "Forbidden".data false
        (some "No API key found in request".data) [])
      rfl (by decide) (by decide) (by decide)).1
